import Mathlib

set_option maxRecDepth 10000

/-!
Verification development for the EEZ-BB3-DCP405-voltage-follower repository.

The repository holds three small instrument-automation scripts:
  - `take_screenshot_bb3.py`: fetches a screenshot from a BB3 chassis over a
    raw socket and decodes the IEEE 488.2 definite-length binary block reply;
  - `DCP405_voltage_follower.py`: a MicroPython polling control loop that makes
    output channel 2 follow input channel 1 plus a configurable offset;
  - `take_screenshot_dmm6500_githubversion.py`: a Selenium-driven screenshot
    tool for a DMM6500 web front panel.

This file gives a shallow embedding of the parts of those scripts that the
stated properties concern.  Byte buffers are `List Nat` (byte values), voltages
and currents are exact rationals (`Rat`; the Python floats at the inputs under
study are exactly representable), and millisecond tick counters are unbounded
integers (`Int`; MicroPython tick wraparound is abstracted away, as the
properties under study only involve short spans).  Side effects (SCPI commands
sent to the instrument) are recorded as explicit event traces.
-/

deriving instance DecidableEq for Except

/-! ## Binary block decoder (`take_screenshot_bb3.py`, lines 49–60) -/

/-- Value of an ASCII decimal digit byte, mirroring Python `int(chr(b))`
on a single character: `some (b - 48)` when `b` is `'0'..'9'`, failure
(`ValueError`) otherwise. -/
def digitVal (b : Nat) : Option Nat :=
  if 48 ≤ b ∧ b ≤ 57 then some (b - 48) else none

/-- Decimal parse of a byte list, mirroring Python `int(bytes)` on the
all-digit strings produced by the instrument's length field: fails on the
empty slice and on any non-digit byte, otherwise folds up the base-10 value. -/
def parseDecDigits (bs : List Nat) : Option Nat :=
  match bs with
  | [] => none
  | _ :: _ =>
    bs.foldl (fun acc b => acc.bind fun a => (digitVal b).map fun dv => 10 * a + dv) (some 0)

/-- Failure modes of the block decode in `take_screenshot`: `formatError` is
the explicit `data.startswith(b"#")` check (prints `ERROR: Invalid response
format`); `parseError` covers the exceptions (IndexError/ValueError) raised by
`data[1]`, `int(chr(data[1]))` or `int(data[2:2+len_of_len])`, caught by the
enclosing `except` block. -/
inductive DecodeErr
  | formatError
  | parseError
deriving DecidableEq, Repr

/-- The definite-length binary block decode of `take_screenshot_bb3.py`,
lines 51–60.  Note the payload extraction is the Python slice
`data[2+len_of_len : 2+len_of_len+data_len]`, which silently truncates when
fewer than `data_len` bytes remain: the embedding keeps that behaviour with
`List.take`. -/
def bb3_decode : List Nat → Except DecodeErr (List Nat)
  | [] => .error .formatError
  | b0 :: rest =>
    if b0 = 35 then
      match rest with
      | [] => .error .parseError
      | b1 :: rest2 =>
        match digitVal b1 with
        | none => .error .parseError
        | some d =>
          match parseDecDigits (rest2.take d) with
          | none => .error .parseError
          | some dataLen => .ok ((rest2.drop d).take dataLen)
    else .error .formatError

/-- Overall outcome of `take_screenshot` in `take_screenshot_bb3.py` as a
function of the received byte buffer: the returned success flag together with
the bytes written to the output file (`none` when no file is written).  On any
decode failure the function prints a diagnostic and returns `False` before
reaching the file write. -/
def take_screenshot (data : List Nat) : Bool × Option (List Nat) :=
  match bb3_decode data with
  | .error _ => (false, none)
  | .ok img => (true, some img)

/-! ## Voltage follower session and loop (`DCP405_voltage_follower.py`) -/

namespace DCP405

/-- SCPI side effects emitted by the voltage-follower script, recorded as
trace events: channel select, output enable/disable, current-limit set,
status display push, output-voltage set, the bounded action poll (with its
computed millisecond timeout) and dialog close. -/
inductive Ev
  | instNsel (n : Nat)
  | outp (isOn : Bool)
  | curr (a : Rat)
  | dispStatus (running : Bool)
  | setU (ch : Nat) (v : Rat)
  | poll (timeout_ms : Int)
  | dialogClose
deriving DecidableEq, Repr

/-- Session state of `DCP405_voltage_follower.py`: the module-level mutable
variables `running`, `voltage_offset`, `current_limit`,
`target_voltage_set` (lines 40–43). -/
structure Session where
  running : Bool
  voltage_offset : Rat
  current_limit : Rat
  target_voltage_set : Rat
deriving DecidableEq, Repr

/-- Initial session state: `running = False`, `voltage_offset = 0.0`,
`current_limit = 0.1`, `target_voltage_set = 0.0`. -/
def initSession : Session :=
  { running := false, voltage_offset := 0, current_limit := 1/10, target_voltage_set := 0 }

/-- The SCPI commands issued by `startControl` (lines 105–116): status push,
channel select, current-limit set, output enable. -/
def enableEvents (lim : Rat) : List Ev :=
  [Ev.dispStatus true, Ev.instNsel 2, Ev.curr lim, Ev.outp true]

/-- The SCPI commands issued by `stopControl` (lines 118–128): status push,
channel select, output disable. -/
def disableEvents : List Ev :=
  [Ev.dispStatus false, Ev.instNsel 2, Ev.outp false]

/-- Function `startControl` (lines 105–116): sets `running := true` and issues the
enable commands. -/
def startControl (s : Session) : Session × List Ev :=
  ({ s with running := true }, enableEvents s.current_limit)

/-- Function `stopControl` (lines 118–128): sets `running := false` and issues the
disable commands. -/
def stopControl (s : Session) : Session × List Ev :=
  ({ s with running := false }, disableEvents)

/-- Bounded numeric entry dialog, modelling the external `DISP:INPUT?` SCPI
query as described by the spec's external-interface section: it blocks for a
numeric entry with the given `lo`/`hi` bounds and returns the entered value
only when it lies inside the bounds, or `none` when the entry is cancelled or
out of range (the firmware dialog does not return an out-of-range value). -/
def dispInput (lo hi : Rat) (entry : Option Rat) : Option Rat :=
  match entry with
  | none => none
  | some x => if lo ≤ x ∧ x ≤ hi then some x else none

/-- Handler `configVoltageOffset` (lines 130–153) as a function of the prior offset,
the live channel-1 reading `v` and the user's entry: prompts with dynamic
bounds `[-v, 40 - v]`; an accepted value replaces the offset, a cancelled or
rejected entry leaves it unchanged (`if value != None`). -/
def configVoltageOffset (off v : Rat) (entry : Option Rat) : Rat :=
  match dispInput (-v) (40 - v) entry with
  | some value => value
  | none => off

/-- Handler `configCurrentLimit` (lines 155–164): prompts with static bounds
`[0.05, 5]`; an accepted value replaces the limit and re-issues the CURR
command on channel 2, otherwise nothing changes. -/
def configCurrentLimit (lim : Rat) (entry : Option Rat) : Rat × List Ev :=
  match dispInput (1/20) 5 entry with
  | some value => (value, [Ev.instNsel 2, Ev.curr value])
  | none => (lim, [])

/-- Function `updateDisplay` (lines 73–103) reduced to its data flow: returns the
measured `(ch1_voltage, ch2_voltage, ch2_current)` on success; any exception
while reading is caught inside the function, which then returns `(0, 0, 0)`
(lines 101–103) and the caller continues. -/
def updateDisplay (meas : Except Unit (Rat × Rat × Rat)) : Rat × Rat × Rat :=
  match meas with
  | .ok m => m
  | .error _ => (0, 0, 0)

/-- The output-target computation of the main loop (lines 226–234):
`target = ch1_v + voltage_offset`, clamped to the device range `[0, 40]` by
the two-branch `if`. -/
def computeTarget (v off : Rat) : Rat :=
  let t := v + off
  if t < 0 then 0 else if t > 40 then 40 else t

/-- Discrete user actions returned by the dialog action poll
(lines 211–221). -/
inductive Action
  | start
  | stop
  | cfgOffset
  | cfgLimit
  | close
deriving DecidableEq, Repr

/-- Loop state carried between iterations of the main `while` loop: the
session variables, the tick deadline base `t` (line 200/249) and
`loop_count` (line 199/241–246). -/
structure LoopState where
  sess : Session
  t : Int
  loop_count : Nat
deriving DecidableEq, Repr

/-- Environment input consumed by one loop iteration: the current tick
reading `now` used for the timeout computation, the action-poll result (an
`Except` error models an I/O exception raised by the poll itself), the
measurement read used by `updateDisplay`, the separate `getU(1)` read inside
`configVoltageOffset`, the user's entries for the two prompts, and whether
commanding the output raises an I/O error. -/
structure IterInput where
  now : Int
  poll : Except Unit (Option Action)
  meas : Except Unit (Rat × Rat × Rat)
  offRead : Except Unit Rat
  offEntry : Option Rat
  limEntry : Option Rat
  setUFails : Bool

/-- Why the main loop exited: the user's close action (line 219–221 `break`)
or an exception caught by the loop's `except` handler (lines 251–253). -/
inductive ExitReason
  | closed
  | ioError
deriving DecidableEq, Repr

/-- Result of one loop iteration: either continue with a new state, or leave
the loop for the given reason; both carry the SCPI events emitted during the
iteration. -/
inductive IterOutcome
  | halt (r : ExitReason) (trace : List Ev)
  | step (st : LoopState) (trace : List Ev)
deriving DecidableEq, Repr

/-- Action dispatch of the main loop (lines 211–218) for non-close actions:
start/stop mutate the running flag and emit their commands; the two configure
actions run their prompts (`configVoltageOffset` catches its own `getU`
failure, leaving the offset unchanged). -/
def handleAction (s : Session) (inp : IterInput) : Option Action → Session × List Ev
  | some Action.start => startControl s
  | some Action.stop => stopControl s
  | some Action.cfgOffset =>
    match inp.offRead with
    | .error _ => (s, [])
    | .ok v => ({ s with voltage_offset := configVoltageOffset s.voltage_offset v inp.offEntry }, [])
  | some Action.cfgLimit =>
    ({ s with current_limit := (configCurrentLimit s.current_limit inp.limEntry).1 },
      (configCurrentLimit s.current_limit inp.limEntry).2)
  | _ => (s, [])

/-- One iteration of the main `while` loop (lines 202–253): compute the next
wake deadline `t_next = t + 500` and the poll timeout `pollTimeout = max 10 (t_next − now)`;
poll for an action (an I/O error here reaches the loop's handler and breaks);
`close` breaks the loop; other actions are dispatched; `updateDisplay` is then
called (its own failures are swallowed and yield zero readings); while
running, the clamped target is commanded on channel 2 (an I/O error here also
breaks); finally `loop_count` is bumped (reset at 10) and `t` is advanced to
`t_next`. -/
def pollTimeout (t now : Int) : Int :=
  max 10 (t + 500 - now)

def loopIter (st : LoopState) (inp : IterInput) : IterOutcome :=
  match inp.poll with
  | .error _ => .halt .ioError [Ev.poll (pollTimeout st.t inp.now)]
  | .ok a =>
    if a = some Action.close then
      .halt .closed [Ev.poll (pollTimeout st.t inp.now)]
    else
      if (handleAction st.sess inp a).1.running then
        if inp.setUFails then
          .halt .ioError
            ([Ev.poll (pollTimeout st.t inp.now)] ++ (handleAction st.sess inp a).2
              ++ [Ev.instNsel 2])
        else
          .step
            { sess :=
                { (handleAction st.sess inp a).1 with
                  target_voltage_set :=
                    computeTarget (updateDisplay inp.meas).1
                      (handleAction st.sess inp a).1.voltage_offset },
              t := st.t + 500,
              loop_count := if st.loop_count + 1 ≥ 10 then 0 else st.loop_count + 1 }
            ([Ev.poll (pollTimeout st.t inp.now)] ++ (handleAction st.sess inp a).2
              ++ [Ev.instNsel 2,
                Ev.setU 2 (computeTarget (updateDisplay inp.meas).1
                  (handleAction st.sess inp a).1.voltage_offset)])
      else
        .step
          { sess := (handleAction st.sess inp a).1, t := st.t + 500,
            loop_count := if st.loop_count + 1 ≥ 10 then 0 else st.loop_count + 1 }
          ([Ev.poll (pollTimeout st.t inp.now)] ++ (handleAction st.sess inp a).2)

/-- Outcome of running the main loop against a finite list of per-iteration
environment inputs: the concatenated event trace, the exit reason (`none`
when the supplied inputs were exhausted with the loop still going), and the
loop state reached. -/
structure RunResult where
  trace : List Ev
  exited : Option ExitReason
  final : LoopState
deriving DecidableEq, Repr

/-- Run the main loop over a list of iteration inputs. -/
def runLoop (st : LoopState) : List IterInput → RunResult
  | [] => ⟨[], none, st⟩
  | inp :: rest =>
    match loopIter st inp with
    | .halt r evs => ⟨evs, some r, st⟩
    | .step st2 evs =>
      let res := runLoop st2 rest
      ⟨evs ++ res.trace, res.exited, res.final⟩

/-- The cleanup block after the loop (lines 255–263): select channel 2,
disable the output, close the dialog.  It runs on every path out of the
`while` loop. -/
def cleanupEvents : List Ev :=
  [Ev.instNsel 2, Ev.outp false, Ev.dialogClose]

/-- The script from loop entry to process exit: the loop's trace followed
unconditionally by the cleanup block, plus the loop's exit reason. -/
def program (st : LoopState) (inps : List IterInput) : List Ev × Option ExitReason :=
  let res := runLoop st inps
  (res.trace ++ cleanupEvents, res.exited)

/-- Predicate picking the output-voltage commands out of a trace. -/
def isSetUEv : Ev → Bool
  | Ev.setU _ _ => true
  | _ => false

/-- A benign iteration environment: poll returns no action at tick 0, the
measurements read `ch1 = 1 V`, and nothing raises. -/
def okInput : IterInput :=
  { now := 0, poll := .ok none, meas := .ok (1, 2, 0), offRead := .ok 1,
    offEntry := none, limEntry := none, setUFails := false }

/-- Loop state at loop entry with the tick base at 0. -/
def st0 : LoopState :=
  { sess := initSession, t := 0, loop_count := 0 }

/-- An iteration input whose measurement read raises an I/O error (the
exception is born inside `updateDisplay`). -/
def measErrInput : IterInput :=
  { okInput with meas := .error () }

/-- An iteration input whose action poll itself raises an I/O error. -/
def pollErrInput : IterInput :=
  { okInput with poll := .error () }

/-- An iteration input where commanding the output voltage raises an I/O
error. -/
def setUErrInput : IterInput :=
  { okInput with setUFails := true }

/-- A benign iteration input with a given channel-1 voltage reading. -/
def demoInput (v : Rat) : IterInput :=
  { now := 0, poll := .ok none, meas := .ok (v, 0, 0), offRead := .ok v,
    offEntry := none, limEntry := none, setUFails := false }

/-- Loop state for the end-to-end follower run: running with offset 0.5 V. -/
def followState : LoopState :=
  { sess := { running := true, voltage_offset := 1/2, current_limit := 1/10,
              target_voltage_set := 0 },
    t := 0, loop_count := 0 }

/-- Source-voltage sequence 1 V, 2 V, 3 V fed to the running loop. -/
def followDemo : List IterInput :=
  [demoInput 1, demoInput 2, demoInput 3]

/-- A running loop state used by concrete instantiations. -/
def runningState : LoopState :=
  { sess := { running := true, voltage_offset := 0, current_limit := 1/10,
              target_voltage_set := 0 },
    t := 0, loop_count := 0 }

end DCP405

/-! ## DMM6500 browser screenshot tool
(`take_screenshot_dmm6500_githubversion.py`) -/

namespace DMM6500

/-- Element-lookup view of the loaded front-panel page: the rendered PNG bytes
of the `bumper` element and of the `contentWrapper` element when each is
found, and the PNG bytes a full-page `get_screenshot_as_png()` would
produce. -/
structure Browser where
  bumper : Option (List Nat)
  contentWrapper : Option (List Nat)
  pagePng : List Nat
deriving DecidableEq, Repr

/-- Outcome of one capture: the success flag `take_screenshot` returns, the
bytes written to the output file (`none` when the file write is never
reached), and the image bytes held in the local `image_data` variable. -/
structure ShotResult where
  success : Bool
  fileBytes : Option (List Nat)
  captured : Option (List Nat)
deriving DecidableEq, Repr

/-- The full-page branch of `take_screenshot` in
`take_screenshot_dmm6500_githubversion.py` (lines 124–167): try the `bumper`
element, fall back to `contentWrapper`; if both lookups fail, capture the full
page into `image_data` and `return True` immediately — before the
file-writing block — so nothing is written; when an element is found its
rendered bytes are captured and written to the file. -/
def take_screenshot_fullpage (b : Browser) : ShotResult :=
  match b.bumper with
  | some png => { success := true, fileBytes := some png, captured := some png }
  | none =>
    match b.contentWrapper with
    | some png => { success := true, fileBytes := some png, captured := some png }
    | none => { success := true, fileBytes := none, captured := some b.pagePng }

/-- Process exit status chosen by the `__main__` block (line 230):
`sys.exit(0 if success else 1)`. -/
def mainExitCode (success : Bool) : Nat :=
  if success then 0 else 1

end DMM6500

/-! ## Properties -/

/-- Claim C1: for every byte buffer whose byte 0 is the marker `#` (35),
whose byte 1 is an ASCII digit `d`, whose bytes `[2, 2+d)` parse as a decimal
integer `L`, and which holds at least `2 + d + L` bytes, the binary block
decoder returns exactly the `L` bytes at positions `[2+d, 2+d+L)` as the
payload. -/
theorem C1_block_decode (b1 : Nat) (rest : List Nat) (d L : Nat)
    (hd : digitVal b1 = some d)
    (hL : parseDecDigits (rest.take d) = some L)
    (hlen : 2 + d + L ≤ (35 :: b1 :: rest).length) :
    bb3_decode (35 :: b1 :: rest) = Except.ok (((35 :: b1 :: rest).drop (2 + d)).take L)
    ∧ (((35 :: b1 :: rest).drop (2 + d)).take L).length = L := by
  have hdrop : (35 :: b1 :: rest).drop (2 + d) = rest.drop d := by
    have h2 : 2 + d = d + 1 + 1 := by omega
    rw [h2, List.drop_succ_cons, List.drop_succ_cons]
  have hrl : 2 + d + L ≤ rest.length + 2 := by simpa using hlen
  constructor
  · rw [hdrop]
    simp [bb3_decode, hd, hL]
  · rw [hdrop, List.length_take, List.length_drop]
    omega

/-- Witness for C1 at the spec's example `#3123<123 bytes>`: 123 payload bytes
(value 9 each) after the header `#3123`, and the decoder returns exactly
them. -/
theorem C1_witness :
    (bb3_decode ((35 : Nat) :: 51 :: ([49, 50, 51] ++ List.replicate 123 9)) =
        Except.ok ((((35 : Nat) :: 51 :: ([49, 50, 51] ++ List.replicate 123 9)).drop (2 + 3)).take 123)
      ∧ ((((35 : Nat) :: 51 :: ([49, 50, 51] ++ List.replicate 123 9)).drop (2 + 3)).take 123).length = 123)
    ∧ bb3_decode ((35 : Nat) :: 51 :: ([49, 50, 51] ++ List.replicate 123 9)) =
        Except.ok (List.replicate 123 9) :=
  ⟨C1_block_decode 51 ([49, 50, 51] ++ List.replicate 123 9) 3 123 (by decide) (by decide)
      (by decide), by decide⟩

/-- Claim C3, evidence of the code bug: on input `#15AB` the block declares a
5-byte payload but only 2 bytes follow; the code returns the truncated 2-byte
payload with success instead of failing on the under-read (the length field
`5` parses fine, and the Python slice silently truncates). -/
theorem C3_truncation :
    parseDecDigits [53] = some 5
    ∧ bb3_decode [35, 49, 53, 65, 66] = Except.ok [65, 66]
    ∧ take_screenshot [35, 49, 53, 65, 66] = (true, some [65, 66])
    ∧ ([65, 66] : List Nat).length = 2 := by decide

/-- Claim C4: for every input buffer whose first byte is not the marker `#`,
the decode fails with the format error and `take_screenshot` reports failure
with no payload written. -/
theorem C4_marker (b0 : Nat) (rest : List Nat) (h : b0 ≠ 35) :
    bb3_decode (b0 :: rest) = Except.error DecodeErr.formatError
    ∧ take_screenshot (b0 :: rest) = (false, none) := by
  have hdec : bb3_decode (b0 :: rest) = Except.error DecodeErr.formatError := by
    simp [bb3_decode, h]
  exact ⟨hdec, by simp [take_screenshot, hdec]⟩

/-- Witness for C4 on the buffer `A12`. -/
theorem C4_witness :
    bb3_decode (65 :: [49, 50]) = Except.error DecodeErr.formatError
    ∧ take_screenshot (65 :: [49, 50]) = (false, none) :=
  C4_marker 65 [49, 50] (by decide)

open DCP405 in
/-- Claim C2: the commanded output target is `clamp(v + o, 0, 40)`, hence
always within `[0, 40]` and monotone in the source reading and in the offset;
and the running loop fed source readings 1 V, 2 V, 3 V with offset 0.5 V
commands exactly the targets 1.5 V, 2.5 V, 3.5 V. -/
theorem C2_clamp (v o v' o' : Rat) (hv : v ≤ v') (ho : o ≤ o') :
    computeTarget v o = max 0 (min (v + o) 40)
    ∧ 0 ≤ computeTarget v o ∧ computeTarget v o ≤ 40
    ∧ computeTarget v o ≤ computeTarget v' o
    ∧ computeTarget v o ≤ computeTarget v o'
    ∧ (runLoop followState followDemo).trace.filter isSetUEv
        = [Ev.setU 2 (3/2), Ev.setU 2 (5/2), Ev.setU 2 (7/2)] := by
  have key : ∀ a b : Rat, computeTarget a b = max 0 (min (a + b) 40) := by
    intro a b
    simp only [computeTarget]
    split_ifs with h1 h2
    · rw [min_eq_left (by linarith), max_eq_left (by linarith)]
    · rw [min_eq_right (by linarith), max_eq_right (by linarith)]
    · rw [min_eq_left (by linarith), max_eq_right (by linarith)]
  refine ⟨key v o, ?_, ?_, ?_, ?_, ?_⟩
  · rw [key]; exact le_max_left _ _
  · rw [key]; exact max_le (by norm_num) (min_le_right _ _)
  · rw [key, key]; exact max_le_max le_rfl (min_le_min (by linarith) le_rfl)
  · rw [key, key]; exact max_le_max le_rfl (min_le_min (by linarith) le_rfl)
  · norm_num [runLoop, loopIter, handleAction, updateDisplay, computeTarget,
      followState, followDemo, demoInput, isSetUEv, List.filter]

open DCP405 in
/-- Witness for C2 at `v = 1`, `o = 0`, `v' = 2`, `o' = 1`. -/
theorem C2_witness :
    computeTarget 1 0 = max 0 (min (1 + 0) 40)
    ∧ 0 ≤ computeTarget 1 0 ∧ computeTarget 1 0 ≤ 40
    ∧ computeTarget 1 0 ≤ computeTarget 2 0
    ∧ computeTarget 1 0 ≤ computeTarget 1 1
    ∧ (runLoop followState followDemo).trace.filter isSetUEv
        = [Ev.setU 2 (3/2), Ev.setU 2 (5/2), Ev.setU 2 (7/2)] :=
  C2_clamp 1 0 2 1 (by norm_num) (by norm_num)

open DCP405 in
/-- Claim C5, counterexample: an iteration whose measurement read raises an
I/O error (swallowed inside `updateDisplay`) is followed by a further
iteration — the run of two inputs, the first with a failing measurement read,
performs both polls and does not exit — so an I/O error while reading
measurements does not terminate the loop. -/
theorem C5_counterexample :
    measErrInput.meas = Except.error ()
    ∧ (runLoop st0 [measErrInput, okInput]).exited = none
    ∧ (runLoop st0 [measErrInput, okInput]).trace = [Ev.poll 500, Ev.poll 1000] :=
  ⟨rfl, by decide, by decide⟩

open DCP405 in
/-- Claim C5 as amended: an I/O error that reaches the loop body — one raised
by the action poll, or one raised while commanding the output — terminates
the loop with no further iteration; but an error raised while reading
measurements is caught inside `updateDisplay`, which reports zero readings,
and the iteration completes and the loop continues. -/
theorem C5_fail_fast (st1 st2 st3 : LoopState) (i1 i2 i3 : IterInput)
    (r1 r2 : List IterInput)
    (h1 : i1.poll = Except.error ())
    (h2a : i2.poll = Except.ok none) (h2b : st2.sess.running = true) (h2c : i2.setUFails = true)
    (h3a : i3.poll = Except.ok none) (h3b : i3.meas = Except.error ()) (h3c : i3.setUFails = false) :
    ((runLoop st1 (i1 :: r1)).exited = some ExitReason.ioError
      ∧ runLoop st1 (i1 :: r1) = runLoop st1 [i1])
    ∧ ((runLoop st2 (i2 :: r2)).exited = some ExitReason.ioError
      ∧ runLoop st2 (i2 :: r2) = runLoop st2 [i2])
    ∧ (∃ st' evs, loopIter st3 i3 = IterOutcome.step st' evs)
    ∧ updateDisplay i3.meas = (0, 0, 0) := by
  have e1 : loopIter st1 i1 = IterOutcome.halt ExitReason.ioError
      [Ev.poll (pollTimeout st1.t i1.now)] := by
    simp [loopIter, h1]
  have e2 : loopIter st2 i2 = IterOutcome.halt ExitReason.ioError
      ([Ev.poll (pollTimeout st2.t i2.now)] ++ [] ++ [Ev.instNsel 2]) := by
    simp [loopIter, h2a, handleAction, h2b, h2c]
  refine ⟨⟨?_, ?_⟩, ⟨?_, ?_⟩, ?_, by simp [updateDisplay, h3b]⟩
  · simp [runLoop, e1]
  · simp [runLoop, e1]
  · simp [runLoop, e2]
  · simp [runLoop, e2]
  · cases hli : loopIter st3 i3 with
    | halt r evs =>
      exfalso
      by_cases hr : st3.sess.running = true
      · simp [loopIter, h3a, handleAction, h3c, hr] at hli
      · simp [loopIter, h3a, handleAction, h3c, hr] at hli
    | step st' evs => exact ⟨st', evs, rfl⟩

open DCP405 in
/-- Witness for C5 as amended: a poll error from the idle state, an
output-command error from the running state, and a measurement error, each at
concrete inputs. -/
theorem C5_witness :
    ((runLoop st0 (pollErrInput :: [okInput])).exited = some ExitReason.ioError
      ∧ runLoop st0 (pollErrInput :: [okInput]) = runLoop st0 [pollErrInput])
    ∧ ((runLoop runningState (setUErrInput :: [okInput])).exited = some ExitReason.ioError
      ∧ runLoop runningState (setUErrInput :: [okInput]) = runLoop runningState [setUErrInput])
    ∧ (∃ st' evs, loopIter st0 measErrInput = IterOutcome.step st' evs)
    ∧ updateDisplay measErrInput.meas = (0, 0, 0) :=
  C5_fail_fast st0 runningState st0 pollErrInput setUErrInput measErrInput [okInput] [okInput]
    rfl rfl rfl rfl rfl rfl rfl

open DCP405 in
/-- Claim C6: whatever inputs drive the loop and however it exits — the close
action from either state or a loop-terminating error — the script's trace is
the loop trace followed by the cleanup block, which disables the output
(`OUTP 0` on channel 2) before final exit. -/
theorem C6_cleanup (st : LoopState) (inps : List IterInput) :
    (program st inps).1 = (runLoop st inps).trace ++ cleanupEvents
    ∧ Ev.outp false ∈ cleanupEvents
    ∧ Ev.outp false ∈ (program st inps).1 := by
  refine ⟨rfl, by decide, ?_⟩
  simp [program, cleanupEvents]

open DCP405 in
/-- Stepping iterations advance the wake deadline by exactly the 500 ms
period and emit the action poll with timeout `max 10 (deadline − now)`. -/
lemma loopIter_step_spec (st st' : LoopState) (inp : IterInput) (evs : List Ev)
    (h : loopIter st inp = IterOutcome.step st' evs) :
    st'.t = st.t + 500
    ∧ evs.head? = some (Ev.poll (pollTimeout st.t inp.now)) := by
  unfold loopIter at h
  repeat' split at h
  all_goals cases h
  all_goals exact ⟨rfl, by simp [pollTimeout]⟩

open DCP405 in
/-- A run in which no iteration exits leaves the deadline base advanced by
exactly 500 ms per iteration. -/
lemma runLoop_none_final_t (inps : List IterInput) :
    ∀ st : LoopState, (runLoop st inps).exited = none →
      (runLoop st inps).final.t = st.t + 500 * inps.length := by
  induction inps with
  | nil => intro st _; simp [runLoop]
  | cons inp rest ih =>
    intro st hnone
    rw [runLoop] at hnone ⊢
    cases hli : loopIter st inp with
    | halt r evs =>
      rw [hli] at hnone
      simp at hnone
    | step st2 evs =>
      rw [hli] at hnone
      simp at hnone
      simp only [List.length_cons]
      have h2 := ih st2 hnone
      have ht := (loopIter_step_spec st st2 inp evs hli).1
      simp [h2, ht]
      ring

open DCP405 in
/-- Claim C7: every iteration that continues advances the wake deadline by
exactly the 500 ms period, its poll waits `max 10 (deadline − now)`
milliseconds, and over any sequence of iterations none of which exits — for
instance 100 of them — the final deadline is the initial one plus 500 ms per
iteration, with no drift accumulation. -/
theorem C7_timing (st st' : LoopState) (inp : IterInput) (evs : List Ev)
    (inps : List IterInput)
    (h : loopIter st inp = IterOutcome.step st' evs)
    (hnone : (runLoop st inps).exited = none) :
    st'.t = st.t + 500
    ∧ evs.head? = some (Ev.poll (pollTimeout st.t inp.now))
    ∧ (runLoop st inps).final.t = st.t + 500 * inps.length :=
  ⟨(loopIter_step_spec st st' inp evs h).1, (loopIter_step_spec st st' inp evs h).2,
    runLoop_none_final_t inps st hnone⟩

open DCP405 in
/-- Witness for C7 over 100 benign iterations with instantaneous handlers:
the final deadline is exactly `100 × 500 ms` past the initial one. -/
theorem C7_witness :
    ({ sess := initSession, t := 500, loop_count := 1 } : LoopState).t = st0.t + 500
    ∧ ([Ev.poll 500] : List Ev).head? = some (Ev.poll (pollTimeout st0.t okInput.now))
    ∧ (runLoop st0 (List.replicate 100 okInput)).final.t
        = st0.t + 500 * (List.replicate 100 okInput).length :=
  C7_timing st0 { sess := initSession, t := 500, loop_count := 1 } okInput [Ev.poll 500]
    (List.replicate 100 okInput)
    (by
      norm_num [loopIter, handleAction, updateDisplay, st0, okInput, initSession, pollTimeout]
      intro hc
      cases hc)
    (by decide)

open DCP405 in
/-- Claim C8: for a current source reading `v`, the configure-offset action
leaves the prior offset unchanged when the prompt is cancelled and when the
proposed value lies outside `[−v, 40 − v]`; only an accepted in-range value
replaces it. -/
theorem C8_offset (off v x y : Rat)
    (hx : x < -v ∨ 40 - v < x) (hy1 : -v ≤ y) (hy2 : y ≤ 40 - v) :
    configVoltageOffset off v none = off
    ∧ configVoltageOffset off v (some x) = off
    ∧ configVoltageOffset off v (some y) = y := by
  refine ⟨rfl, ?_, ?_⟩
  · have hnot : ¬(-v ≤ x ∧ x ≤ 40 - v) := by
      rintro ⟨a, b⟩
      rcases hx with h | h <;> linarith
    simp [configVoltageOffset, dispInput, hnot]
  · simp [configVoltageOffset, dispInput, hy1, hy2]

open DCP405 in
/-- Witness for C8 with reading 10 V: offset 1 V survives a cancelled prompt
and a 100 V out-of-range proposal, while an in-range 0 V proposal is
accepted. -/
theorem C8_witness :
    configVoltageOffset 1 10 none = 1
    ∧ configVoltageOffset 1 10 (some 100) = 1
    ∧ configVoltageOffset 1 10 (some 0) = 0 :=
  C8_offset 1 10 100 0 (Or.inr (by norm_num)) (by norm_num) (by norm_num)

open DCP405 in
/-- Claim C9: `startControl` from a running session leaves the session
unchanged and re-issues only the enable commands, `stopControl` from a
stopped session leaves it unchanged and re-issues only the disable commands,
and both applied twice give the same session state as applied once. -/
theorem C9_idem (s u : Session) (hs : s.running = true) (hu : u.running = false) :
    (startControl s).1 = s
    ∧ (startControl s).2 = enableEvents s.current_limit
    ∧ (stopControl u).1 = u
    ∧ (stopControl u).2 = disableEvents
    ∧ (∀ w : Session, (startControl (startControl w).1).1 = (startControl w).1
        ∧ (stopControl (stopControl w).1).1 = (stopControl w).1
        ∧ (startControl w).1.running = true
        ∧ (stopControl w).1.running = false) := by
  refine ⟨?_, rfl, ?_, rfl, ?_⟩
  · cases s; simp_all [startControl]
  · cases u; simp_all [stopControl]
  · intro w; exact ⟨rfl, rfl, rfl, rfl⟩

open DCP405 in
/-- Witness for C9 on a running session and the initial (stopped) session. -/
theorem C9_witness :
    (startControl runningState.sess).1 = runningState.sess
    ∧ (startControl runningState.sess).2 = enableEvents runningState.sess.current_limit
    ∧ (stopControl initSession).1 = initSession
    ∧ (stopControl initSession).2 = disableEvents
    ∧ (∀ w : Session, (startControl (startControl w).1).1 = (startControl w).1
        ∧ (stopControl (stopControl w).1).1 = (stopControl w).1
        ∧ (startControl w).1.running = true
        ∧ (stopControl w).1.running = false) :=
  C9_idem runningState.sess initSession rfl rfl

/-- Claim C10: in the browser tool's full-page mode, when neither the
`bumper` element nor the `contentWrapper` fallback is found, the capture
holds the full-page screenshot in memory and returns success — exit status
0 — without writing any bytes to the output file. -/
theorem C10_fallback (b : DMM6500.Browser)
    (h1 : b.bumper = none) (h2 : b.contentWrapper = none) :
    DMM6500.take_screenshot_fullpage b =
      { success := true, fileBytes := none, captured := some b.pagePng }
    ∧ DMM6500.mainExitCode (DMM6500.take_screenshot_fullpage b).success = 0 := by
  have e : DMM6500.take_screenshot_fullpage b =
      { success := true, fileBytes := none, captured := some b.pagePng } := by
    simp [DMM6500.take_screenshot_fullpage, h1, h2]
  refine ⟨e, ?_⟩
  rw [e]
  rfl

/-- Witness for C10 on a page with neither element present. -/
theorem C10_witness :
    DMM6500.take_screenshot_fullpage ⟨none, none, [1, 2, 3]⟩ =
      { success := true, fileBytes := none, captured := some [1, 2, 3] }
    ∧ DMM6500.mainExitCode (DMM6500.take_screenshot_fullpage ⟨none, none, [1, 2, 3]⟩).success = 0 :=
  C10_fallback ⟨none, none, [1, 2, 3]⟩ rfl rfl
